import Mathlib

/-!
Verification of the TeamCache Manager Python client
(`src/api-gateway/examples/python-client.py`).

The file shallowly embeds the client: JSON values become an inductive type,
HTTP requests and responses become structures, the network becomes an
oracle function from requests to responses, and Python exceptions become
`Except` errors.  Each Python method is translated into a Lean definition
that mirrors the source line by line.
-/

namespace TCManager

/-- JSON values, as produced by `json.loads` and sent via `json=data`. -/
inductive Json where
  | null
  | bool (b : Bool)
  | num (n : Int)
  | str (s : String)
  | arr (elems : List Json)
  | obj (fields : List (String × Json))
  deriving Repr

/-- Python `d.get(k)`: `none` when `d` is not a dict or lacks the key,
mirroring that `data.get` only yields a value on a dict holding the key. -/
def Json.get? (j : Json) (k : String) : Option Json :=
  match j with
  | .obj fields => (fields.find? (fun f => f.1 == k)).map (fun f => f.2)
  | _ => none

/-- Python `v == s` for a string literal `s`: true only when `v` is that
string (comparing `None` or a non-string to a string is `False`). -/
def Json.isStr (j : Json) (s : String) : Bool :=
  match j with
  | .str t => t == s
  | _ => false

/-- An HTTP request as issued by the client: method, full URL, the custom
headers attached (session headers, or none for a bare `requests.get`),
query parameters and optional JSON body. -/
structure HttpRequest where
  method : String
  url : String
  headers : List (String × String)
  params : List (String × Json)
  body : Option Json
  deriving Repr

/-- An HTTP response: status code and parsed JSON body. -/
structure HttpResponse where
  statusCode : Nat
  body : Json
  deriving Repr

/-- The exceptions the client can raise. -/
inductive ClientError where
  | valueError (msg : String)
  | httpError (statusCode : Nat)
  | keyError (key : String)
  deriving Repr, DecidableEq

/-- `response.raise_for_status()`: raises `HTTPError` exactly on 4xx and
5xx status codes. -/
def raise_for_status (r : HttpResponse) : Except ClientError Unit :=
  if 400 ≤ r.statusCode ∧ r.statusCode < 600 then
    .error (.httpError r.statusCode)
  else
    .ok ()

/-- Python `s.rstrip('/')`. -/
def rstripSlash (s : String) : String :=
  ⟨(s.data.reverse.dropWhile (fun c => c = '/')).reverse⟩

/-- The state built by `TeamCacheClient.__init__`: base URL, api key and
the headers installed on `self.session`. -/
structure Session where
  api_url : String
  api_key : String
  headers : List (String × String)
  deriving Repr, DecidableEq

/-- `TeamCacheClient.__init__`: strips trailing slashes from the URL and
installs `X-API-Key` and `Content-Type` on the session. -/
def TeamCacheClient.init (api_url : String) (api_key : String) : Session :=
  { api_url := rstripSlash api_url
    api_key := api_key
    headers := [("X-API-Key", api_key), ("Content-Type", "application/json")] }

/-- Python truthiness of an `Optional[List[str]]` argument as tested by
`if not files`: `None` and the empty list are falsy. -/
def listTruthy : Option (List String) → Bool
  | none => false
  | some l => !l.isEmpty

/-- Python truthiness of an `Optional[str]` argument as tested by
`if status:`: `None` and the empty string are falsy. -/
def strTruthy : Option String → Bool
  | none => false
  | some s => !s.isEmpty

/-- Send a request through the network oracle, call `raise_for_status`,
and return the parsed body — the shape every API method of the client
shares: build request, `raise_for_status`, `return response.json()`. -/
def send (http : HttpRequest → HttpResponse) (req : HttpRequest) :
    Except ClientError Json :=
  match raise_for_status (http req) with
  | .error e => .error e
  | .ok _ => .ok (http req).body

/-- The GET request of `health_check`, sent via the session. -/
def health_check_request (s : Session) : HttpRequest :=
  { method := "GET", url := s.api_url ++ "/api/v1/health",
    headers := s.headers, params := [], body := none }

/-- `health_check`. -/
def health_check (s : Session) (http : HttpRequest → HttpResponse) :
    Except ClientError Json :=
  send http (health_check_request s)

/-- The `data` dict built by `create_cache_job`: always `recursive`, plus
`files` when `files` is truthy and `directories` when `directories` is
truthy. -/
def create_cache_job_data (files directories : Option (List String))
    (recursive : Bool) : Json :=
  Json.obj
    ([("recursive", Json.bool recursive)]
      ++ (if listTruthy files then
            [("files", Json.arr ((files.getD []).map Json.str))]
          else [])
      ++ (if listTruthy directories then
            [("directories", Json.arr ((directories.getD []).map Json.str))]
          else []))

/-- The POST request of `create_cache_job`, sent via the session. -/
def create_cache_job_request (s : Session) (files directories : Option (List String))
    (recursive : Bool) : HttpRequest :=
  { method := "POST", url := s.api_url ++ "/api/v1/cache/jobs",
    headers := s.headers, params := [],
    body := some (create_cache_job_data files directories recursive) }

/-- The validation and request construction of `create_cache_job`:
`if not files and not directories: raise ValueError(...)`, otherwise the
POST request is built. `Except.error` means the `ValueError` was raised
and no HTTP request is sent. -/
def create_cache_job (s : Session) (files directories : Option (List String))
    (recursive : Bool) : Except ClientError HttpRequest :=
  if !listTruthy files && !listTruthy directories then
    .error (.valueError "Must provide either files or directories")
  else
    .ok (create_cache_job_request s files directories recursive)

/-- `create_cache_job` run against the network oracle. -/
def create_cache_job_call (s : Session) (files directories : Option (List String))
    (recursive : Bool) (http : HttpRequest → HttpResponse) :
    Except ClientError Json :=
  match create_cache_job s files directories recursive with
  | .error e => .error e
  | .ok req => send http req

/-- The GET request of `get_job_status`, sent via the session. -/
def get_job_status_request (s : Session) (job_id : String) : HttpRequest :=
  { method := "GET", url := s.api_url ++ "/api/v1/cache/jobs/" ++ job_id,
    headers := s.headers, params := [], body := none }

/-- `get_job_status`. -/
def get_job_status (s : Session) (job_id : String)
    (http : HttpRequest → HttpResponse) : Except ClientError Json :=
  send http (get_job_status_request s job_id)

/-- The GET request of `list_jobs`, sent via the session: the params dict
always holds `page` and `limit`, and holds `status` only when `status` is
truthy (`if status:`). -/
def list_jobs_request (s : Session) (page limit : Int) (status : Option String) :
    HttpRequest :=
  { method := "GET", url := s.api_url ++ "/api/v1/cache/jobs",
    headers := s.headers,
    params := [("page", Json.num page), ("limit", Json.num limit)]
      ++ (if strTruthy status then [("status", Json.str (status.getD ""))] else []),
    body := none }

/-- `list_jobs`. -/
def list_jobs (s : Session) (page limit : Int) (status : Option String)
    (http : HttpRequest → HttpResponse) : Except ClientError Json :=
  send http (list_jobs_request s page limit status)

/-- The DELETE request of `cancel_job`, sent via the session. -/
def cancel_job_request (s : Session) (job_id : String) : HttpRequest :=
  { method := "DELETE", url := s.api_url ++ "/api/v1/cache/jobs/" ++ job_id,
    headers := s.headers, params := [], body := none }

/-- `cancel_job`. -/
def cancel_job (s : Session) (job_id : String)
    (http : HttpRequest → HttpResponse) : Except ClientError Json :=
  send http (cancel_job_request s job_id)

/-- The GET request of `get_metrics`.  The source calls the module-level
`requests.get`, not `self.session.get`, so no custom headers — in
particular no `X-API-Key` — are attached. -/
def get_metrics_request (s : Session) : HttpRequest :=
  { method := "GET", url := s.api_url ++ "/api/v1/metrics",
    headers := [], params := [], body := none }

/-- `get_metrics`. -/
def get_metrics (s : Session) (http : HttpRequest → HttpResponse) :
    Except ClientError Json :=
  send http (get_metrics_request s)

/-- The GET request of `get_s3_metrics`.  Also a bare `requests.get`: no
custom headers are attached. -/
def get_s3_metrics_request (s : Session) : HttpRequest :=
  { method := "GET", url := s.api_url ++ "/api/v1/metrics/s3",
    headers := [], params := [], body := none }

/-- `get_s3_metrics`. -/
def get_s3_metrics (s : Session) (http : HttpRequest → HttpResponse) :
    Except ClientError Json :=
  send http (get_s3_metrics_request s)

/-- A job object, as read from the `"job"` field of a `get_job_status`
response: its `"status"` string together with the rest of the payload. -/
structure Job where
  status : String
  payload : Json
  deriving Repr

/-- The terminal check of `monitor_job`:
`job["status"] in ["completed", "failed", "cancelled"]`. -/
def isTerminalStatus (st : String) : Bool :=
  st == "completed" || st == "failed" || st == "cancelled"

/-- The polling loop of `monitor_job`.  `polls k` is the job object
delivered by the k-th successful `get_job_status` poll; `i` is the index
of the current poll and `fuel` bounds how many iterations we observe.
`some job` means the loop returned `job`; `none` means the loop was still
polling after `fuel` further iterations. -/
def monitor_job (polls : Nat → Job) (i : Nat) : Nat → Option Job
  | 0 => none
  | fuel + 1 =>
    let job := polls i
    if isTerminalStatus job.status then some job
    else monitor_job polls (i + 1) fuel

/-- The body of the `try` block of `batch_cache_directories` for one
directory, up to the point that decides the appended job id:
`create_cache_job(directories=[directory])` followed by
`result["jobId"]`.  The first component is the id appended to `job_ids`
(`none` when an exception fired before the append); the second records
whether the block raised.  `postRaises` says whether the code after the
append — the console prints of `totalFiles`/`totalSize` and the optional
`monitor_job` call — raises; such an exception happens after the append,
so it cannot remove the id. -/
def batch_try_block (s : Session) (http : HttpRequest → HttpResponse)
    (postRaises : Bool) (directory : String) : Option Json × Bool :=
  match create_cache_job_call s none (some [directory]) true http with
  | .error _ => (none, true)
  | .ok result =>
    match result.get? "jobId" with
    | none => (none, true)
    | some job_id => (some job_id, postRaises)

/-- The loop of `batch_cache_directories`: one `try` block per directory,
`except Exception` catching every failure and continuing with the rest.
`https k` and `postRaises k` give the network and the post-append outcome
for the k-th submission; `i` is the index of the current one. -/
def batch_cache_directories (s : Session) (https : Nat → HttpRequest → HttpResponse)
    (postRaises : Nat → Bool) : Nat → List String → List Json
  | _, [] => []
  | i, directory :: rest =>
    match batch_try_block s (https i) (postRaises i) directory with
    | (none, _) => batch_cache_directories s https postRaises (i + 1) rest
    | (some job_id, _) => job_id :: batch_cache_directories s https postRaises (i + 1) rest

/-- The `self.metrics` dict of `MetricsMonitor`: both entries start as
`None`. -/
structure MetricsState where
  lucidLink : Option Json
  s3Health : Option Json
  deriving Repr

/-- `MetricsMonitor.__init__`. -/
def MetricsMonitor.init : MetricsState :=
  { lucidLink := none, s3Health := none }

/-- Python `data.get(k) == s` for a string literal `s`. -/
def Json.getIsStr (data : Json) (k lit : String) : Bool :=
  match data.get? k with
  | some v => v.isStr lit
  | none => false

/-- The message dispatch of `connect_and_monitor`: the chain of
`if data.get("type") == ...` branches.  Each branch assigns its
`self.metrics` entries before any display code runs, so even when the
display raises (caught by the loop's `except Exception`), the state
change below is what remains. -/
def handle_message (m : MetricsState) (data : Json) : MetricsState :=
  if data.getIsStr "type" "metrics" then
    { lucidLink := data.get? "lucidLink", s3Health := data.get? "s3Health" }
  else if data.getIsStr "type" "lucidlink-stats" then
    { m with lucidLink := data.get? "lucidLink" }
  else if data.getIsStr "type" "s3-health" then
    { m with s3Health := data.get? "s3Health" }
  else m

/-- One receive outcome inside the loop of `connect_and_monitor`. -/
inductive WsEvent where
  /-- `websocket.recv` returned within the timeout and the message parsed. -/
  | msg (data : Json)
  /-- `asyncio.TimeoutError` was raised by `asyncio.wait_for`. -/
  | timeout
  /-- any other exception, caught by `except Exception`. -/
  | exc
  deriving Repr

/-- The guard `if duration and (time.time() - start_time) > duration`:
`None` and `0` are falsy, any other integer is truthy; `elapsed` stands
for `time.time() - start_time`. -/
def duration_break (duration : Option Int) (elapsed : ℚ) : Bool :=
  match duration with
  | none => false
  | some d => d != 0 && decide ((d : ℚ) < elapsed)

/-- The monitoring loop of `connect_and_monitor`, observed for at most
`fuel` iterations.  `elapsed k` and `events k` give the clock reading at
the duration check and the receive outcome of iteration `k`; `i` is the
current iteration.  `some (m, k)` means the loop hit `break` at iteration
`k` with metrics `m`; `none` means it was still looping after `fuel`
iterations.  A `timeout` event runs `continue` and an `exc` event prints
and falls through, neither touching the state; a `msg` event runs the
dispatch. -/
def connect_and_monitor (duration : Option Int) (elapsed : Nat → ℚ)
    (events : Nat → WsEvent) (m : MetricsState) (i : Nat) :
    Nat → Option (MetricsState × Nat)
  | 0 => none
  | fuel + 1 =>
    if duration_break duration (elapsed i) then some (m, i)
    else
      connect_and_monitor duration elapsed events
        (match events i with
          | .msg data => handle_message m data
          | .timeout => m
          | .exc => m)
        (i + 1) fuel

/-- Look a key up in a params dict. -/
def lookupParam (ps : List (String × Json)) (k : String) : Option Json :=
  (ps.find? (fun p => p.1 == k)).map (fun p => p.2)

/-- Whether the JSON body of a request is a dict holding the key `k`. -/
def bodyHasKey (req : HttpRequest) (k : String) : Bool :=
  match req.body with
  | some j => (j.get? k).isSome
  | none => false

/-- A poll sequence whose first terminal job appears at index 2; used to
instantiate the `monitor_job` theorem. -/
def witnessPolls : Nat → Job :=
  fun k => if k == 2 then ⟨"completed", Json.null⟩ else ⟨"running", Json.null⟩

/-- The default session of the example `main`. -/
def defaultSession : Session :=
  TeamCacheClient.init "http://localhost:8095" "demo-api-key-2024"

/-- A network that answers every request with a 503 failure. -/
def httpFail : HttpRequest → HttpResponse :=
  fun _ => ⟨503, Json.null⟩

/-- A network that answers every request with a 200 success. -/
def httpOk : HttpRequest → HttpResponse :=
  fun _ => ⟨200, Json.obj [("success", Json.bool true)]⟩

/-- A full-snapshot streaming message. -/
def msgMetrics : Json :=
  .obj [("type", .str "metrics"), ("lucidLink", .num 1), ("s3Health", .bool true)]

/-- A throughput-update streaming message. -/
def msgStats : Json :=
  .obj [("type", .str "lucidlink-stats"), ("lucidLink", .num 2)]

/-- A health-update streaming message. -/
def msgS3 : Json :=
  .obj [("type", .str "s3-health"), ("s3Health", .bool false)]

/-- A streaming message with an unrecognized type value. -/
def msgOther : Json :=
  .obj [("type", .str "job-update"), ("lucidLink", .num 3)]

/-- A metrics state with both fields populated; used to observe which
fields a message leaves unchanged. -/
def witnessMetricsState : MetricsState :=
  { lucidLink := some (.num 9), s3Health := some (.str "h") }

/-- The raise-or-parse behavior of one API operation: a 4xx/5xx response
makes it raise `HTTPError` with that status and return no value, a
success response makes it return the parsed body. -/
def raisesOrParses (http : HttpRequest → HttpResponse) (req : HttpRequest)
    (result : Except ClientError Json) : Prop :=
  (400 ≤ (http req).statusCode → (http req).statusCode < 600 →
    result = .error (.httpError (http req).statusCode)) ∧
  (200 ≤ (http req).statusCode → (http req).statusCode < 300 →
    result = .ok (http req).body)

/-! ## Helper lemmas -/

theorem send_raise (http : HttpRequest → HttpResponse) (req : HttpRequest)
    (h4 : 400 ≤ (http req).statusCode) (h6 : (http req).statusCode < 600) :
    send http req = .error (.httpError (http req).statusCode) := by
  simp only [send, raise_for_status]
  rw [if_pos ⟨h4, h6⟩]

theorem send_parse (http : HttpRequest → HttpResponse) (req : HttpRequest)
    (h : ¬(400 ≤ (http req).statusCode ∧ (http req).statusCode < 600)) :
    send http req = .ok (http req).body := by
  simp only [send, raise_for_status]
  rw [if_neg h]

theorem send_raisesOrParses (http : HttpRequest → HttpResponse) (req : HttpRequest) :
    raisesOrParses http req (send http req) := by
  constructor
  · intro h4 h6
    exact send_raise http req h4 h6
  · intro h2 h3
    exact send_parse http req (by omega)

theorem create_cache_job_of_truthy (s : Session)
    (files directories : Option (List String)) (recursive : Bool)
    (h : (listTruthy files || listTruthy directories) = true) :
    create_cache_job s files directories recursive =
      .ok (create_cache_job_request s files directories recursive) := by
  have hcond : (!listTruthy files && !listTruthy directories) = false := by
    cases hf : listTruthy files <;> cases hd : listTruthy directories <;> simp_all
  simp [create_cache_job, hcond]

theorem monitor_job_reaches (polls : Nat → Job) :
    ∀ fuel i n, i ≤ n → n - i < fuel →
      isTerminalStatus (polls n).status = true →
      (∀ j, i ≤ j → j < n → isTerminalStatus (polls j).status = false) →
      monitor_job polls i fuel = some (polls n) := by
  intro fuel
  induction fuel with
  | zero =>
    intro i n hin hlt
    omega
  | succ fuel ih =>
    intro i n hin hlt hterm hmin
    by_cases hi : isTerminalStatus (polls i).status = true
    · have hieq : i = n := by
        by_contra hne
        have hmlt : i < n := lt_of_le_of_ne hin hne
        rw [hmin i (le_refl i) hmlt] at hi
        cases hi
      subst hieq
      simp [monitor_job, hi]
    · have hi' : isTerminalStatus (polls i).status = false := by
        cases h : isTerminalStatus (polls i).status
        · rfl
        · exact absurd h hi
      have hne : i ≠ n := by
        intro he
        subst he
        rw [hterm] at hi'
        cases hi'
      simp only [monitor_job, hi', Bool.false_eq_true, if_false]
      exact ih (i + 1) n (by omega) (by omega) hterm
        (fun j hj1 hj2 => hmin j (by omega) hj2)

theorem monitor_job_continues (polls : Nat → Job) :
    ∀ fuel i, (∀ j, i ≤ j → j < i + fuel → isTerminalStatus (polls j).status = false) →
      monitor_job polls i fuel = none := by
  intro fuel
  induction fuel with
  | zero =>
    intro i _
    rfl
  | succ fuel ih =>
    intro i h
    have hi : isTerminalStatus (polls i).status = false := h i (le_refl i) (by omega)
    simp only [monitor_job, hi, Bool.false_eq_true, if_false]
    exact ih (i + 1) (fun j hj1 hj2 => h j (by omega) (by omega))

theorem batch_try_block_fst_indep (s : Session) (http : HttpRequest → HttpResponse)
    (pr pr' : Bool) (d : String) :
    (batch_try_block s http pr d).1 = (batch_try_block s http pr' d).1 := by
  rcases hc : create_cache_job_call s none (some [d]) true http with e | result
  · simp [batch_try_block, hc]
  · rcases hj : result.get? "jobId" with _ | jid <;> simp [batch_try_block, hc, hj]

theorem batch_eq_filterMap (s : Session) (https : Nat → HttpRequest → HttpResponse)
    (postRaises : Nat → Bool) :
    ∀ dirs i, batch_cache_directories s https postRaises i dirs =
      (dirs.enumFrom i).filterMap
        (fun p => (batch_try_block s (https p.1) (postRaises p.1) p.2).1) := by
  intro dirs
  induction dirs with
  | nil =>
    intro i
    rfl
  | cons d rest ih =>
    intro i
    rw [List.enumFrom_cons, List.filterMap_cons]
    rcases hb : batch_try_block s (https i) (postRaises i) d with ⟨fst, snd⟩
    cases fst with
    | none => simp [batch_cache_directories, hb, ih (i + 1)]
    | some job_id => simp [batch_cache_directories, hb, ih (i + 1)]

theorem getIsStr_ne (data : Json) (k a b : String) (hne : a ≠ b)
    (h : data.getIsStr k a = true) : data.getIsStr k b = false := by
  unfold Json.getIsStr at h ⊢
  rcases hg : data.get? k with _ | v
  · rw [hg] at h
  · rw [hg] at h
    have hv : v.isStr a = true := h
    show v.isStr b = false
    cases v with
    | str t =>
      have h2 : t = a := by simpa [Json.isStr] using hv
      subst h2
      simpa [Json.isStr] using hne
    | null => simp [Json.isStr] at hv
    | bool b2 => simp [Json.isStr] at hv
    | num n2 => simp [Json.isStr] at hv
    | arr xs => simp [Json.isStr] at hv
    | obj fs => simp [Json.isStr] at hv

theorem connect_exit_duration (duration : Option Int) (elapsed : Nat → ℚ)
    (events : Nat → WsEvent) :
    ∀ fuel m i m₂ j,
      connect_and_monitor duration elapsed events m i fuel = some (m₂, j) →
      ∃ d, duration = some d ∧ d ≠ 0 ∧ (d : ℚ) < elapsed j := by
  intro fuel
  induction fuel with
  | zero =>
    intro m i m₂ j h
    cases h
  | succ fuel ih =>
    intro m i m₂ j h
    rw [connect_and_monitor] at h
    by_cases hb : duration_break duration (elapsed i) = true
    · rw [if_pos hb] at h
      simp only [Option.some.injEq, Prod.mk.injEq] at h
      obtain ⟨hm, hj⟩ := h
      subst hj
      cases duration with
      | none => simp [duration_break] at hb
      | some d =>
        simp only [duration_break, Bool.and_eq_true, bne_iff_ne, ne_eq,
          decide_eq_true_eq] at hb
        exact ⟨d, rfl, hb.1, hb.2⟩
    · rw [if_neg hb] at h
      exact ih _ _ _ _ h

theorem connect_none_eq_none (elapsed : Nat → ℚ) (events : Nat → WsEvent) :
    ∀ fuel m i, connect_and_monitor none elapsed events m i fuel = none := by
  intro fuel
  induction fuel with
  | zero =>
    intro m i
    rfl
  | succ fuel ih =>
    intro m i
    rw [connect_and_monitor]
    rw [if_neg (by simp [duration_break])]
    exact ih _ _

theorem connect_zero_eq_none (elapsed : Nat → ℚ) (events : Nat → WsEvent) :
    ∀ fuel m i, connect_and_monitor (some 0) elapsed events m i fuel = none := by
  intro fuel
  induction fuel with
  | zero =>
    intro m i
    rfl
  | succ fuel ih =>
    intro m i
    rw [connect_and_monitor]
    rw [if_neg (by simp [duration_break])]
    exact ih _ _

theorem connect_step_no_state_change (duration : Option Int) (elapsed : Nat → ℚ)
    (events : Nat → WsEvent) (m : MetricsState) (i fuel : Nat)
    (hb : duration_break duration (elapsed i) = false)
    (he : events i = WsEvent.timeout ∨ events i = WsEvent.exc) :
    connect_and_monitor duration elapsed events m i (fuel + 1) =
      connect_and_monitor duration elapsed events m (i + 1) fuel := by
  rw [connect_and_monitor]
  rw [if_neg (by simp [hb])]
  rcases he with he | he <;> rw [he]

/-! ## C1 -/

/-- C1 (counterexample): at the default construction arguments, the
requests of `get_metrics` and `get_s3_metrics` carry no custom header at
all — in particular not the `X-API-Key` header the claim asserts for
every operation. -/
theorem C1_get_metrics_missing_api_key :
    ("X-API-Key", "demo-api-key-2024") ∉
      (get_metrics_request
        (TeamCacheClient.init "http://localhost:8095" "demo-api-key-2024")).headers ∧
    ("X-API-Key", "demo-api-key-2024") ∉
      (get_s3_metrics_request
        (TeamCacheClient.init "http://localhost:8095" "demo-api-key-2024")).headers := by
  constructor <;> simp [get_metrics_request, get_s3_metrics_request]

/-- C1 (amended): every request issued through the session — those of
`health_check`, `create_cache_job`, `get_job_status`, `list_jobs` and
`cancel_job` — carries the `X-API-Key` header with the api key given at
construction, for every api key; the requests of `get_metrics` and
`get_s3_metrics` are bare `requests.get` calls carrying no custom headers,
hence no `X-API-Key`. -/
theorem C1_session_requests_carry_api_key (api_url api_key job_id : String)
    (files directories : Option (List String)) (recursive : Bool)
    (page limit : Int) (status : Option String) :
    ("X-API-Key", api_key) ∈
      (health_check_request (TeamCacheClient.init api_url api_key)).headers ∧
    ("X-API-Key", api_key) ∈
      (create_cache_job_request (TeamCacheClient.init api_url api_key)
        files directories recursive).headers ∧
    ("X-API-Key", api_key) ∈
      (get_job_status_request (TeamCacheClient.init api_url api_key) job_id).headers ∧
    ("X-API-Key", api_key) ∈
      (list_jobs_request (TeamCacheClient.init api_url api_key) page limit status).headers ∧
    ("X-API-Key", api_key) ∈
      (cancel_job_request (TeamCacheClient.init api_url api_key) job_id).headers ∧
    (get_metrics_request (TeamCacheClient.init api_url api_key)).headers = [] ∧
    (get_s3_metrics_request (TeamCacheClient.init api_url api_key)).headers = [] := by
  refine ⟨?_, ?_, ?_, ?_, ?_, rfl, rfl⟩ <;>
    simp [health_check_request, create_cache_job_request, get_job_status_request,
      list_jobs_request, cancel_job_request, TeamCacheClient.init]

/-! ## C3 -/

/-- C3: `create_cache_job` raises the `ValueError` when both `files` and
`directories` are absent — and then no HTTP request is sent — while
whenever at least one of them is given non-empty no `ValueError` is
raised and the POST request is issued. -/
theorem C3_create_cache_job_requires_paths (s : Session) (recursive : Bool) :
    create_cache_job s none none recursive =
      .error (.valueError "Must provide either files or directories") ∧
    ∀ files directories : Option (List String),
      (listTruthy files || listTruthy directories) = true →
      create_cache_job s files directories recursive =
        .ok (create_cache_job_request s files directories recursive) := by
  refine ⟨rfl, ?_⟩
  intro files directories h
  exact create_cache_job_of_truthy s files directories recursive h

/-- Witness for C3 at concrete arguments. -/
theorem C3_create_cache_job_requires_paths_witness :
    create_cache_job (TeamCacheClient.init "http://localhost:8095" "demo-api-key-2024")
        none none true =
      .error (.valueError "Must provide either files or directories") ∧
    create_cache_job (TeamCacheClient.init "http://localhost:8095" "demo-api-key-2024")
        none (some ["Projects/2024/Q1"]) true =
      .ok (create_cache_job_request
            (TeamCacheClient.init "http://localhost:8095" "demo-api-key-2024")
            none (some ["Projects/2024/Q1"]) true) := by
  have h := C3_create_cache_job_requires_paths
    (TeamCacheClient.init "http://localhost:8095" "demo-api-key-2024") true
  exact ⟨h.1, h.2 none (some ["Projects/2024/Q1"]) rfl⟩

/-! ## C2 -/

/-- C2: for every sequence of polled job objects, if the first job with a
terminal status — `"completed"`, `"failed"` or `"cancelled"` — appears at
poll `n`, then `monitor_job` returns exactly at poll `n` and returns that
job object (for any iteration budget past `n`), while any run observing
only the polls before `n` is still polling. -/
theorem C2_monitor_job_stops_at_first_terminal (polls : Nat → Job) (n : Nat)
    (hterm : isTerminalStatus (polls n).status = true)
    (hmin : ∀ j, j < n → isTerminalStatus (polls j).status = false) :
    (∀ fuel, n < fuel → monitor_job polls 0 fuel = some (polls n)) ∧
    (∀ fuel, fuel ≤ n → monitor_job polls 0 fuel = none) := by
  constructor
  · intro fuel hf
    exact monitor_job_reaches polls fuel 0 n (Nat.zero_le n) (by omega) hterm
      (fun j _ hj => hmin j hj)
  · intro fuel hf
    exact monitor_job_continues polls fuel 0 (fun j _ hj => hmin j (by omega))

/-- Witness for C2 on a poll sequence whose first terminal status appears
at index 2. -/
theorem C2_monitor_job_stops_at_first_terminal_witness :
    monitor_job witnessPolls 0 5 = some (witnessPolls 2) ∧
    monitor_job witnessPolls 0 2 = none := by
  have h := C2_monitor_job_stops_at_first_terminal witnessPolls 2 (by decide)
    (by decide)
  exact ⟨h.1 5 (by omega), h.2 2 (le_refl 2)⟩

/-! ## C4 -/

/-- C4: every API operation of the client — `health_check`,
`create_cache_job` (on valid arguments, so that a request is sent),
`get_job_status`, `list_jobs`, `cancel_job`, `get_metrics`,
`get_s3_metrics` — raises `HTTPError` and returns no value when its HTTP
response carries a 4xx or 5xx status, and returns the parsed JSON body
when the response carries a success status. -/
theorem C4_operations_raise_on_http_failure (s : Session)
    (http : HttpRequest → HttpResponse) (job_id : String)
    (files directories : Option (List String)) (recursive : Bool)
    (page limit : Int) (status : Option String)
    (hvalid : (listTruthy files || listTruthy directories) = true) :
    raisesOrParses http (health_check_request s) (health_check s http) ∧
    raisesOrParses http (create_cache_job_request s files directories recursive)
      (create_cache_job_call s files directories recursive http) ∧
    raisesOrParses http (get_job_status_request s job_id)
      (get_job_status s job_id http) ∧
    raisesOrParses http (list_jobs_request s page limit status)
      (list_jobs s page limit status http) ∧
    raisesOrParses http (cancel_job_request s job_id) (cancel_job s job_id http) ∧
    raisesOrParses http (get_metrics_request s) (get_metrics s http) ∧
    raisesOrParses http (get_s3_metrics_request s) (get_s3_metrics s http) := by
  have hcreate : create_cache_job_call s files directories recursive http =
      send http (create_cache_job_request s files directories recursive) := by
    simp [create_cache_job_call,
      create_cache_job_of_truthy s files directories recursive hvalid]
  refine ⟨send_raisesOrParses http _, ?_, send_raisesOrParses http _,
    send_raisesOrParses http _, send_raisesOrParses http _,
    send_raisesOrParses http _, send_raisesOrParses http _⟩
  rw [hcreate]
  exact send_raisesOrParses http _

/-- Witness for C4: against an all-503 network every operation raises the
`HTTPError`, against an all-200 network every operation returns the
parsed body. -/
theorem C4_operations_raise_on_http_failure_witness :
    health_check defaultSession httpFail = .error (.httpError 503) ∧
    create_cache_job_call defaultSession none (some ["Projects/2024/Q1"]) true httpFail =
      .error (.httpError 503) ∧
    get_job_status defaultSession "job-1" httpFail = .error (.httpError 503) ∧
    list_jobs defaultSession 1 10 none httpFail = .error (.httpError 503) ∧
    cancel_job defaultSession "job-1" httpFail = .error (.httpError 503) ∧
    get_metrics defaultSession httpFail = .error (.httpError 503) ∧
    get_s3_metrics defaultSession httpFail = .error (.httpError 503) ∧
    health_check defaultSession httpOk = .ok (Json.obj [("success", Json.bool true)]) ∧
    create_cache_job_call defaultSession none (some ["Projects/2024/Q1"]) true httpOk =
      .ok (Json.obj [("success", Json.bool true)]) ∧
    get_job_status defaultSession "job-1" httpOk =
      .ok (Json.obj [("success", Json.bool true)]) ∧
    list_jobs defaultSession 1 10 none httpOk =
      .ok (Json.obj [("success", Json.bool true)]) ∧
    cancel_job defaultSession "job-1" httpOk =
      .ok (Json.obj [("success", Json.bool true)]) ∧
    get_metrics defaultSession httpOk = .ok (Json.obj [("success", Json.bool true)]) ∧
    get_s3_metrics defaultSession httpOk = .ok (Json.obj [("success", Json.bool true)]) := by
  have hF := C4_operations_raise_on_http_failure defaultSession httpFail "job-1"
    none (some ["Projects/2024/Q1"]) true 1 10 none rfl
  have hO := C4_operations_raise_on_http_failure defaultSession httpOk "job-1"
    none (some ["Projects/2024/Q1"]) true 1 10 none rfl
  exact ⟨hF.1.1 (by decide) (by decide),
    hF.2.1.1 (by decide) (by decide),
    hF.2.2.1.1 (by decide) (by decide),
    hF.2.2.2.1.1 (by decide) (by decide),
    hF.2.2.2.2.1.1 (by decide) (by decide),
    hF.2.2.2.2.2.1.1 (by decide) (by decide),
    hF.2.2.2.2.2.2.1 (by decide) (by decide),
    hO.1.2 (by decide) (by decide),
    hO.2.1.2 (by decide) (by decide),
    hO.2.2.1.2 (by decide) (by decide),
    hO.2.2.2.1.2 (by decide) (by decide),
    hO.2.2.2.2.1.2 (by decide) (by decide),
    hO.2.2.2.2.2.1.2 (by decide) (by decide),
    hO.2.2.2.2.2.2.2 (by decide) (by decide)⟩

/-! ## C6 -/

/-- C6 (counterexample): with the status argument provided as the empty
string, `list_jobs` sends only `page` and `limit` — the `status` key is
omitted even though a status was provided, because the source tests
`if status:` which is falsy on the empty string. -/
theorem C6_empty_status_omitted :
    (list_jobs_request (TeamCacheClient.init "http://localhost:8095" "demo-api-key-2024")
        1 10 (some "")).params = [("page", Json.num 1), ("limit", Json.num 10)] ∧
    lookupParam (list_jobs_request
        (TeamCacheClient.init "http://localhost:8095" "demo-api-key-2024")
        1 10 (some "")).params "status" = none :=
  ⟨rfl, rfl⟩

/-- C6 (amended): `list_jobs` always sends `page` and `limit` with the
given values, sends the `status` filter exactly when a non-empty status
is provided, and omits the `status` key when the status is absent or
empty. -/
theorem C6_list_jobs_params (s : Session) (page limit : Int) (status : Option String) :
    lookupParam (list_jobs_request s page limit status).params "page" =
      some (Json.num page) ∧
    lookupParam (list_jobs_request s page limit status).params "limit" =
      some (Json.num limit) ∧
    (∀ st : String, status = some st → st ≠ "" →
      lookupParam (list_jobs_request s page limit status).params "status" =
        some (Json.str st)) ∧
    (strTruthy status = false →
      lookupParam (list_jobs_request s page limit status).params "status" = none) := by
  match status with
  | none =>
    refine ⟨rfl, rfl, ?_, fun _ => rfl⟩
    intro st heq
    exact absurd heq (by simp)
  | some st =>
    by_cases hst : st = ""
    · subst hst
      refine ⟨rfl, rfl, ?_, fun _ => rfl⟩
      intro st2 heq hne
      cases heq
      exact absurd rfl hne
    · have hie : st.isEmpty = false := by
        by_contra hc
        rw [Bool.not_eq_false] at hc
        exact hst ((String.isEmpty_iff st).mp hc)
      have htr : strTruthy (some st) = true := by
        simp [strTruthy, hie]
      refine ⟨?_, ?_, ?_, ?_⟩
      · simp [list_jobs_request, lookupParam, htr, List.find?]
      · simp [list_jobs_request, lookupParam, htr, List.find?]
      · intro st2 heq hne
        cases heq
        simp [list_jobs_request, lookupParam, htr, List.find?]
      · intro hfalse
        rw [htr] at hfalse
        cases hfalse

/-- Witness for C6 at concrete arguments, once with a non-empty status and
once with the status absent. -/
theorem C6_list_jobs_params_witness :
    lookupParam (list_jobs_request
        (TeamCacheClient.init "http://localhost:8095" "demo-api-key-2024")
        2 5 (some "running")).params "page" = some (Json.num 2) ∧
    lookupParam (list_jobs_request
        (TeamCacheClient.init "http://localhost:8095" "demo-api-key-2024")
        2 5 (some "running")).params "limit" = some (Json.num 5) ∧
    lookupParam (list_jobs_request
        (TeamCacheClient.init "http://localhost:8095" "demo-api-key-2024")
        2 5 (some "running")).params "status" = some (Json.str "running") ∧
    lookupParam (list_jobs_request
        (TeamCacheClient.init "http://localhost:8095" "demo-api-key-2024")
        1 10 none).params "status" = none := by
  have h1 := C6_list_jobs_params
    (TeamCacheClient.init "http://localhost:8095" "demo-api-key-2024") 2 5 (some "running")
  have h2 := C6_list_jobs_params
    (TeamCacheClient.init "http://localhost:8095" "demo-api-key-2024") 1 10 none
  exact ⟨h1.1, h1.2.1, h1.2.2.1 "running" rfl (by decide), h2.2.2.2 rfl⟩

/-! ## C5 -/

/-- C5: `batch_cache_directories` processes the directories in order; a
submission that raises — a failing HTTP status or a missing `jobId` — is
caught and processing continues with the remaining directories; the
returned list is exactly the job ids of the successfully created jobs in
submission order (the `filterMap` of the per-directory outcomes); an
exception after the append (console prints, monitoring) never changes
the list; and the list is never longer than the input. -/
theorem C5_batch_continues_and_collects (s : Session)
    (https : Nat → HttpRequest → HttpResponse)
    (postRaises postRaises₂ : Nat → Bool) (dirs : List String) (i : Nat) :
    batch_cache_directories s https postRaises i dirs =
      (dirs.enumFrom i).filterMap
        (fun p => (batch_try_block s (https p.1) (postRaises p.1) p.2).1) ∧
    batch_cache_directories s https postRaises i dirs =
      batch_cache_directories s https postRaises₂ i dirs ∧
    (batch_cache_directories s https postRaises i dirs).length ≤ dirs.length := by
  refine ⟨batch_eq_filterMap s https postRaises dirs i, ?_, ?_⟩
  · rw [batch_eq_filterMap s https postRaises dirs i,
      batch_eq_filterMap s https postRaises₂ dirs i]
    exact List.filterMap_congr
      (fun p _ => batch_try_block_fst_indep s (https p.1) (postRaises p.1)
        (postRaises₂ p.1) p.2)
  · rw [batch_eq_filterMap s https postRaises dirs i]
    calc ((dirs.enumFrom i).filterMap _).length
        ≤ (dirs.enumFrom i).length := List.length_filterMap_le _ _
      _ = dirs.length := List.enumFrom_length

/-! ## C7 -/

/-- C7: the streaming-metrics dispatch updates only the fields the
message carries: a `"metrics"` message sets both stored fields, a
`"lucidlink-stats"` message updates `lucidLink` and leaves `s3Health`
unchanged, an `"s3-health"` message updates `s3Health` and leaves
`lucidLink` unchanged, and a message with any other type value leaves
both fields unchanged. -/
theorem C7_handle_message_frame (m : MetricsState) (data : Json) :
    (data.getIsStr "type" "metrics" = true →
      handle_message m data =
        { lucidLink := data.get? "lucidLink", s3Health := data.get? "s3Health" }) ∧
    (data.getIsStr "type" "lucidlink-stats" = true →
      handle_message m data =
        { lucidLink := data.get? "lucidLink", s3Health := m.s3Health }) ∧
    (data.getIsStr "type" "s3-health" = true →
      handle_message m data =
        { lucidLink := m.lucidLink, s3Health := data.get? "s3Health" }) ∧
    (data.getIsStr "type" "metrics" = false →
      data.getIsStr "type" "lucidlink-stats" = false →
      data.getIsStr "type" "s3-health" = false →
      handle_message m data = m) := by
  refine ⟨?_, ?_, ?_, ?_⟩
  · intro h
    simp [handle_message, h]
  · intro h
    have h1 := getIsStr_ne data "type" "lucidlink-stats" "metrics" (by decide) h
    simp [handle_message, h, h1]
  · intro h
    have h1 := getIsStr_ne data "type" "s3-health" "metrics" (by decide) h
    have h2 := getIsStr_ne data "type" "s3-health" "lucidlink-stats" (by decide) h
    simp [handle_message, h, h1, h2]
  · intro h1 h2 h3
    simp [handle_message, h1, h2, h3]

/-- Witness for C7 on one concrete message of each type. -/
theorem C7_handle_message_frame_witness :
    handle_message witnessMetricsState msgMetrics =
      { lucidLink := some (.num 1), s3Health := some (.bool true) } ∧
    handle_message witnessMetricsState msgStats =
      { lucidLink := some (.num 2), s3Health := some (.str "h") } ∧
    handle_message witnessMetricsState msgS3 =
      { lucidLink := some (.num 9), s3Health := some (.bool false) } ∧
    handle_message witnessMetricsState msgOther = witnessMetricsState := by
  exact ⟨(C7_handle_message_frame witnessMetricsState msgMetrics).1 rfl,
    (C7_handle_message_frame witnessMetricsState msgStats).2.1 rfl,
    (C7_handle_message_frame witnessMetricsState msgS3).2.2.1 rfl,
    (C7_handle_message_frame witnessMetricsState msgOther).2.2.2 rfl rfl rfl⟩

/-! ## C8 -/

/-- C8 (counterexample): the loop of `connect_and_monitor` can exit
without any positive duration having elapsed: with `duration = -1` —
truthy in Python — and the clock still at 0, the very first duration
check breaks out of the loop, refuting that the loop exits only when a
positive duration has elapsed. -/
theorem C8_negative_duration_exits_immediately :
    connect_and_monitor (some (-1)) (fun _ => (0 : ℚ)) (fun _ => WsEvent.timeout)
      MetricsMonitor.init 0 1 = some (MetricsMonitor.init, 0) ∧
    ¬(0 < (-1 : Int)) := by
  exact ⟨rfl, by decide⟩

/-- C8 (amended): a receive timeout — and likewise any other
per-message exception — never terminates the monitoring loop: both make
the loop continue to the next iteration with the state unchanged, and the
loop exits only through the duration check, i.e. only when `duration` is
a nonzero integer and the elapsed time exceeds it. -/
theorem C8_timeout_never_terminates (duration : Option Int) (elapsed : Nat → ℚ)
    (events : Nat → WsEvent) (m : MetricsState) (i fuel : Nat) :
    (∀ m₂ j, connect_and_monitor duration elapsed events m i fuel = some (m₂, j) →
      ∃ d, duration = some d ∧ d ≠ 0 ∧ (d : ℚ) < elapsed j) ∧
    (duration_break duration (elapsed i) = false → events i = WsEvent.timeout →
      connect_and_monitor duration elapsed events m i (fuel + 1) =
        connect_and_monitor duration elapsed events m (i + 1) fuel) ∧
    (duration_break duration (elapsed i) = false → events i = WsEvent.exc →
      connect_and_monitor duration elapsed events m i (fuel + 1) =
        connect_and_monitor duration elapsed events m (i + 1) fuel) := by
  refine ⟨?_, ?_, ?_⟩
  · intro m₂ j h
    exact connect_exit_duration duration elapsed events fuel m i m₂ j h
  · intro hb he
    exact connect_step_no_state_change duration elapsed events m i fuel hb (Or.inl he)
  · intro hb he
    exact connect_step_no_state_change duration elapsed events m i fuel hb (Or.inr he)

/-- Witness for C8: an exiting run yields a nonzero duration exceeded by
the clock, and a timeout iteration merely advances the loop. -/
theorem C8_timeout_never_terminates_witness :
    (∃ d, some (5 : Int) = some d ∧ d ≠ 0 ∧ (d : ℚ) < 10) ∧
    connect_and_monitor none (fun _ => (0 : ℚ)) (fun _ => WsEvent.timeout)
        MetricsMonitor.init 0 1 =
      connect_and_monitor none (fun _ => (0 : ℚ)) (fun _ => WsEvent.timeout)
        MetricsMonitor.init 1 0 := by
  constructor
  · exact (C8_timeout_never_terminates (some 5) (fun _ => (10 : ℚ))
      (fun _ => WsEvent.timeout) MetricsMonitor.init 0 1).1 MetricsMonitor.init 0 rfl
  · exact (C8_timeout_never_terminates none (fun _ => (0 : ℚ))
      (fun _ => WsEvent.timeout) MetricsMonitor.init 0 0).2.1 rfl rfl

/-! ## C9 -/

/-- C9 (counterexample): the loop can terminate by elapsed time although
the duration is not a positive number: with `duration = -5` the first
duration check breaks out immediately, refuting that elapsed-time
termination requires a positive duration. -/
theorem C9_negative_duration_terminates :
    connect_and_monitor (some (-5)) (fun _ => (0 : ℚ)) (fun _ => WsEvent.exc)
      MetricsMonitor.init 0 3 = some (MetricsMonitor.init, 0) ∧
    ¬(0 < (-5 : Int)) := by
  exact ⟨rfl, by decide⟩

/-- C9 (amended): `duration = 0` behaves exactly like `duration = None` —
the elapsed-time check is skipped and the loop never exits on its own —
and the loop can terminate by elapsed time only when the duration is a
nonzero integer (a negative duration terminates it immediately, a
positive one after it has elapsed). -/
theorem C9_zero_duration_like_none (elapsed : Nat → ℚ) (events : Nat → WsEvent)
    (m : MetricsState) (i fuel : Nat) :
    connect_and_monitor (some 0) elapsed events m i fuel =
      connect_and_monitor none elapsed events m i fuel ∧
    connect_and_monitor (some 0) elapsed events m i fuel = none ∧
    (∀ d m₂ j, connect_and_monitor (some d) elapsed events m i fuel = some (m₂, j) →
      d ≠ 0) := by
  refine ⟨?_, connect_zero_eq_none elapsed events fuel m i, ?_⟩
  · rw [connect_zero_eq_none elapsed events fuel m i,
      connect_none_eq_none elapsed events fuel m i]
  · intro d m₂ j h
    obtain ⟨d2, hd2, hne, _⟩ := connect_exit_duration (some d) elapsed events fuel m i m₂ j h
    cases hd2
    exact hne

/-- Witness for C9: a zero duration never exits, and an exiting run with
`duration = 7` has a nonzero duration. -/
theorem C9_zero_duration_like_none_witness :
    connect_and_monitor (some 0) (fun _ => (99 : ℚ)) (fun _ => WsEvent.timeout)
        MetricsMonitor.init 0 3 =
      connect_and_monitor none (fun _ => (99 : ℚ)) (fun _ => WsEvent.timeout)
        MetricsMonitor.init 0 3 ∧
    connect_and_monitor (some 0) (fun _ => (99 : ℚ)) (fun _ => WsEvent.timeout)
        MetricsMonitor.init 0 3 = none ∧
    (7 : Int) ≠ 0 := by
  have h := C9_zero_duration_like_none (fun _ => (99 : ℚ)) (fun _ => WsEvent.timeout)
    MetricsMonitor.init 0 3
  have h2 := C9_zero_duration_like_none (fun _ => (10 : ℚ)) (fun _ => WsEvent.timeout)
    MetricsMonitor.init 0 1
  exact ⟨h.1, h.2.1, h2.2.2 7 MetricsMonitor.init 0 rfl⟩

/-! ## C10 -/

/-- C10: `create_cache_job` treats empty lists like absent arguments —
`files=[]`/`directories=[]` in any combination with absence raise the
`ValueError` — and whenever a request is built its JSON body holds the
key `"files"` exactly when `files` is non-empty, `"directories"` exactly
when `directories` is non-empty, and `"recursive"` always. -/
theorem C10_empty_lists_like_absent (s : Session) (recursive : Bool) :
    create_cache_job s (some []) (some []) recursive =
      .error (.valueError "Must provide either files or directories") ∧
    create_cache_job s (some []) none recursive =
      .error (.valueError "Must provide either files or directories") ∧
    create_cache_job s none (some []) recursive =
      .error (.valueError "Must provide either files or directories") ∧
    ∀ files directories req,
      create_cache_job s files directories recursive = .ok req →
      (bodyHasKey req "files" = listTruthy files ∧
       bodyHasKey req "directories" = listTruthy directories ∧
       bodyHasKey req "recursive" = true) := by
  refine ⟨rfl, rfl, rfl, ?_⟩
  intro files directories req h
  cases hf : listTruthy files <;> cases hd : listTruthy directories <;>
      simp [create_cache_job, hf, hd] at h <;>
    (subst h
     simp [bodyHasKey, create_cache_job_request, create_cache_job_data,
       Json.get?, hf, hd, List.find?])

/-- Witness for C10 at concrete arguments. -/
theorem C10_empty_lists_like_absent_witness :
    create_cache_job defaultSession (some []) (some []) true =
      .error (.valueError "Must provide either files or directories") ∧
    create_cache_job defaultSession (some []) none true =
      .error (.valueError "Must provide either files or directories") ∧
    create_cache_job defaultSession none (some []) true =
      .error (.valueError "Must provide either files or directories") ∧
    (bodyHasKey (create_cache_job_request defaultSession (some ["a"]) none true)
        "files" = true ∧
     bodyHasKey (create_cache_job_request defaultSession (some ["a"]) none true)
        "directories" = false ∧
     bodyHasKey (create_cache_job_request defaultSession (some ["a"]) none true)
        "recursive" = true) := by
  have h := C10_empty_lists_like_absent defaultSession true
  refine ⟨h.1, h.2.1, h.2.2.1, ?_⟩
  exact h.2.2.2 (some ["a"]) none
    (create_cache_job_request defaultSession (some ["a"]) none true) rfl

end TCManager
